import Mathlib

/-!
Shallow embedding of src/main.py (a command-line weather client) and proofs
of the specification claims about it.

Python dictionaries and JSON values are modelled by the `Json` inductive; a
Python exception escaping a function is modelled by an `Option` result of
`none`.  The single blocking HTTP exchange performed by each fetch function
is modelled by a `NetOutcome` parameter: a timeout, a connection failure, or
a decoded response with a status code and an optional JSON body (a body of
`none` models a body that is not valid JSON, on which the Python call
`resp.json()` raises).
-/

/-- JSON values / Python dictionary values as used by src/main.py. -/
inductive Json where
  | null
  | str (s : String)
  | num (n : Int)
  | arr (xs : List Json)
  | obj (kvs : List (String × Json))
deriving Repr

/-- Outcome of the single HTTP GET issued by a fetch function.  `response`
carries the final status code and the decoded body (`none` when the body is
not valid JSON, so that the Python call resp.json() raises). -/
inductive NetOutcome where
  | timeout
  | connFailure
  | response (status : Nat) (body : Option Json)
deriving Repr

/-- Python dict.get with a default: total on dict receivers, an exception
(`none`) on anything else. -/
def pyDictGet (j : Json) (k : String) (dflt : Json) : Option Json :=
  match j with
  | .obj kvs => some ((kvs.lookup k).getD dflt)
  | _ => none

/-- Python subscript x[0] on a value expected to be a list: the head of a
non-empty list, an exception (`none`) otherwise. -/
def pyIndex0 (j : Json) : Option Json :=
  match j with
  | .arr (x :: _) => some x
  | _ => none

/-- Python dict subscript d[k]: the value if present, a KeyError (`none`)
otherwise; an exception on a non-dict receiver. -/
def pyDictIndex (j : Json) (k : String) : Option Json :=
  match j with
  | .obj kvs => kvs.lookup k
  | _ => none

/-- Python membership test k in d on a dict receiver. -/
def pyDictContains (j : Json) (k : String) : Bool :=
  match j with
  | .obj kvs => (kvs.lookup k).isSome
  | _ => false

/-- Python slice xs[:n] for an Int bound n: the first n elements when n is
non-negative, everything but the last (-n) elements when n is negative
(clamped at the empty list). -/
def pySliceTo (xs : List Json) (n : Int) : List Json :=
  if 0 ≤ n then xs.take n.toNat else xs.take (xs.length - (-n).toNat)

mutual
/-- Python repr of a value, as far as the values of this program need. -/
def pyRepr : Json → String
  | .null => "None"
  | .str s => "\x27" ++ s ++ "\x27"
  | .num n => toString n
  | .arr xs => "[" ++ pyReprList xs ++ "]"
  | .obj kvs => "\x7b" ++ pyReprObj kvs ++ "\x7d"

def pyReprList : List Json → String
  | [] => ""
  | [x] => pyRepr x
  | x :: y :: xs => pyRepr x ++ ", " ++ pyReprList (y :: xs)

def pyReprObj : List (String × Json) → String
  | [] => ""
  | [kv] => "\x27" ++ kv.1 ++ "\x27: " ++ pyRepr kv.2
  | kv :: kv2 :: kvs => "\x27" ++ kv.1 ++ "\x27: " ++ pyRepr kv.2 ++ ", " ++ pyReprObj (kv2 :: kvs)
end

/-- Python str of a value, as used by f-string interpolation. -/
def pyStr (j : Json) : String :=
  match j with
  | .str s => s
  | _ => pyRepr j

/-- The base URL constant of src/main.py. -/
def BASE_URL : String := "https://api.openweathermap.org/data/2.5"

/-- Whether resp.raise_for_status() raises: it raises exactly on 4xx and
5xx status codes. -/
def statusRaises (status : Nat) : Bool :=
  decide (400 ≤ status) && decide (status < 600)

/-- Whether the network outcome makes the try-block of a fetch function
raise a requests.RequestException: a timeout, a connection failure, or a
status on which raise_for_status raises. -/
def isRequestFailure : NetOutcome → Bool
  | .timeout => true
  | .connFailure => true
  | .response status _ => statusRaises status

/-- Model of the text of the caught requests exception, str e, interpolated
into the error message.  The exact wording comes from the requests library
and is abstracted here; what matters is that it describes the failure. -/
def requestErrorDescr : NetOutcome → String
  | .timeout => "read timed out"
  | .connFailure => "connection error"
  | .response status _ => "HTTP error " ++ toString status

/-- The body-parsing part of fetch_weather_current: everything after the
try-block, operating on the decoded JSON body.  Exception propagation is
written as explicit matches on each fallible Python operation, in source
order. -/
def parse_current_body (data : Json) : Option Json :=
  match pyDictGet data "main" (Json.obj []) with
  | none => none
  | some mn =>
  match pyDictGet data "weather" (Json.arr [Json.obj []]) with
  | none => none
  | some w0 =>
  match pyIndex0 w0 with
  | none => none
  | some weather =>
  match pyDictGet data "wind" (Json.obj []) with
  | none => none
  | some wind =>
  match pyDictGet data "name" Json.null with
  | none => none
  | some city =>
  match pyDictGet data "sys" (Json.obj []) with
  | none => none
  | some sys =>
  match pyDictGet sys "country" Json.null with
  | none => none
  | some country =>
  match pyDictGet mn "temp" Json.null with
  | none => none
  | some temp =>
  match pyDictGet mn "feels_like" Json.null with
  | none => none
  | some feels =>
  match pyDictGet mn "humidity" Json.null with
  | none => none
  | some humidity =>
  match pyDictGet mn "pressure" Json.null with
  | none => none
  | some pressure =>
  match pyDictGet weather "main" Json.null with
  | none => none
  | some wmain =>
  match pyDictGet weather "description" Json.null with
  | none => none
  | some wdesc =>
  match pyDictGet wind "speed" Json.null with
  | none => none
  | some wspeed =>
  some (Json.obj [("city", city), ("country", country), ("temp", temp),
                  ("feels_like", feels), ("humidity", humidity), ("pressure", pressure),
                  ("weather_main", wmain), ("weather_desc", wdesc), ("wind_speed", wspeed)])

/-- Embedding of fetch_weather_current from src/main.py.  The HTTP exchange
is replaced by the `net` parameter; `units` only affects the request query
string, never the handling of the response. -/
def fetch_weather_current (city : String) (units : String) (net : NetOutcome) : Option Json :=
  match net with
  | .timeout => some (.obj [("error", .str ("Request failed: " ++ requestErrorDescr .timeout))])
  | .connFailure => some (.obj [("error", .str ("Request failed: " ++ requestErrorDescr .connFailure))])
  | .response status body =>
    if statusRaises status then
      some (.obj [("error", .str ("Request failed: " ++ requestErrorDescr (.response status body)))])
    else
      match body with
      | none => none
      | some data => parse_current_body data

/-- Embedding of the loop body of fetch_weather_forecast: how one raw
forecast entry is turned into the dictionary appended to forecasts. -/
def parse_forecast_entry (entry : Json) : Option Json :=
  match pyDictGet entry "main" (Json.obj []) with
  | none => none
  | some mn =>
  match pyDictGet entry "weather" (Json.arr [Json.obj []]) with
  | none => none
  | some w0 =>
  match pyIndex0 w0 with
  | none => none
  | some weather =>
  match pyDictGet entry "wind" (Json.obj []) with
  | none => none
  | some wind =>
  match pyDictGet entry "dt_txt" Json.null with
  | none => none
  | some dt =>
  match pyDictGet mn "temp" Json.null with
  | none => none
  | some temp =>
  match pyDictGet mn "feels_like" Json.null with
  | none => none
  | some feels =>
  match pyDictGet mn "humidity" Json.null with
  | none => none
  | some humidity =>
  match pyDictGet mn "pressure" Json.null with
  | none => none
  | some pressure =>
  match pyDictGet weather "main" Json.null with
  | none => none
  | some wmain =>
  match pyDictGet weather "description" Json.null with
  | none => none
  | some wdesc =>
  match pyDictGet wind "speed" Json.null with
  | none => none
  | some wspeed =>
  some (Json.obj [("datetime", dt), ("temp", temp), ("feels_like", feels),
                  ("humidity", humidity), ("pressure", pressure),
                  ("weather_main", wmain), ("weather_desc", wdesc), ("wind_speed", wspeed)])

/-- Embedding of the for-loop over raw_list[:cnt] in fetch_weather_forecast:
entries are processed in order and the first exception aborts the loop. -/
def build_forecasts : List Json → Option (List Json)
  | [] => some []
  | e :: rest =>
    match parse_forecast_entry e with
    | none => none
    | some fe =>
      match build_forecasts rest with
      | none => none
      | some others => some (fe :: others)

/-- Embedding of fetch_weather_forecast from src/main.py. -/
def fetch_weather_forecast (city : String) (cnt : Int) (units : String) (net : NetOutcome) :
    Option Json :=
  match net with
  | .timeout => some (.obj [("error", .str ("Request failed: " ++ requestErrorDescr .timeout))])
  | .connFailure => some (.obj [("error", .str ("Request failed: " ++ requestErrorDescr .connFailure))])
  | .response status body =>
    if statusRaises status then
      some (.obj [("error", .str ("Request failed: " ++ requestErrorDescr (.response status body)))])
    else
      match body with
      | none => none
      | some data =>
        match pyDictGet data "list" (Json.arr []) with
        | none => none
        | some (Json.arr rawList) =>
          match build_forecasts (pySliceTo rawList cnt) with
          | none => none
          | some forecasts =>
          match pyDictGet data "city" (Json.obj []) with
          | none => none
          | some cityObj =>
          match pyDictGet cityObj "name" Json.null with
          | none => none
          | some cname =>
          match pyDictGet data "city" (Json.obj []) with
          | none => none
          | some cityObj2 =>
          match pyDictGet cityObj2 "country" Json.null with
          | none => none
          | some ccountry =>
          some (Json.obj [("city", cname), ("country", ccountry),
                          ("forecasts", Json.arr forecasts)])
        | some _ => none

/-- Embedding of pretty_current from src/main.py. -/
def pretty_current (d : Json) : Option String :=
  if pyDictContains d "error" then
    match pyDictIndex d "error" with
    | none => none
    | some e => some ("Error: " ++ pyStr e)
  else
    match pyDictIndex d "city" with
    | none => none
    | some city =>
    match pyDictIndex d "country" with
    | none => none
    | some country =>
    match pyDictIndex d "weather_main" with
    | none => none
    | some wmain =>
    match pyDictIndex d "weather_desc" with
    | none => none
    | some wdesc =>
    match pyDictIndex d "temp" with
    | none => none
    | some temp =>
    match pyDictIndex d "feels_like" with
    | none => none
    | some feels =>
    match pyDictIndex d "humidity" with
    | none => none
    | some humidity =>
    match pyDictIndex d "pressure" with
    | none => none
    | some pressure =>
    match pyDictIndex d "wind_speed" with
    | none => none
    | some wspeed =>
    some ((((("📍 " ++ pyStr city ++ ", " ++ pyStr country ++ "\n") ++
      ("🌤️  " ++ pyStr wmain ++ " - " ++ pyStr wdesc ++ "\n")) ++
      ("🌡️  Temp: " ++ pyStr temp ++ "°C (feels like " ++ pyStr feels ++ "°C)\n")) ++
      ("💧 Humidity: " ++ pyStr humidity ++ "% | Pressure: " ++ pyStr pressure ++ " hPa\n")) ++
      ("💨 Wind speed: " ++ pyStr wspeed ++ " m/s\n"))

/-- Embedding of the loop of pretty_forecast: one output line per displayed
entry, in order, first exception aborting. -/
def forecast_lines : List Json → Option (List String)
  | [] => some []
  | e :: rest =>
    match pyDictGet e "datetime" Json.null with
    | none => none
    | some dt =>
    match pyDictGet e "temp" Json.null with
    | none => none
    | some temp =>
    match pyDictGet e "weather_desc" Json.null with
    | none => none
    | some desc =>
    match forecast_lines rest with
    | none => none
    | some others =>
    some ((pyStr dt ++ ": " ++ pyStr temp ++ "°C, " ++ pyStr desc) :: others)

/-- Embedding of pretty_forecast from src/main.py. -/
def pretty_forecast (fc : Json) (show_n : Int) : Option String :=
  if pyDictContains fc "error" then
    match pyDictIndex fc "error" with
    | none => none
    | some e => some ("Error: " ++ pyStr e)
  else
    match pyDictGet fc "forecasts" (Json.arr []) with
    | none => none
    | some (Json.arr fs) =>
      match forecast_lines (pySliceTo fs show_n) with
      | none => none
      | some out =>
        some (if out.isEmpty then "No forecast data." else String.intercalate "\n" out)
    | some _ => none

/-- Embedding of the module-level configuration code of src/main.py: the
environment variable OPENWEATHER_API_KEY is read (None when absent) and a
RuntimeError is raised when it is absent or empty (Python truthiness). -/
def module_init (env : Option String) : Except String String :=
  match env with
  | none => .error "❌ Missing OPENWEATHER_API_KEY in .env file"
  | some s => if s = "" then .error "❌ Missing OPENWEATHER_API_KEY in .env file" else .ok s

/-- One HTTP GET request as issued by a fetch function: url plus the query
parameters q, appid and units. -/
structure HttpRequest where
  url : String
  q : String
  appid : String
  units : String
deriving Repr

/-- The sequence of HTTP requests a whole run of the program issues, given
the environment variable and the parsed command-line arguments.  The
module-level raise on a missing or empty key happens at import time, before
main runs, so no request at all is issued in that case. -/
def program_http_requests (env : Option String) (city : String)
    (forecast : Bool) (entries : Int) : List HttpRequest :=
  match module_init env with
  | .error _ => []
  | .ok key =>
    HttpRequest.mk (BASE_URL ++ "/weather") city key "metric" ::
      (if forecast then
        [HttpRequest.mk (BASE_URL ++ "/forecast") city key "metric"]
      else [])

/-- Substring search over the character lists of two strings (used to state
that a diagnostic names the missing environment variable). -/
def charsStart : List Char → List Char → Bool
  | _, [] => true
  | [], _ :: _ => false
  | a :: as, b :: bs => a == b && charsStart as bs

def charsHave : List Char → List Char → Bool
  | [], pat => pat.isEmpty
  | a :: as, pat => charsStart (a :: as) pat || charsHave as pat

def strHas (s pat : String) : Bool := charsHave s.data pat.data

/-- An optional sub-structure that, when present, is an object: the shape on
which a Python chained dict.get cannot raise. -/
def objOrMissing : Option Json → Bool
  | none => true
  | some (Json.obj _) => true
  | some _ => false

/-- An optional weather-conditions value that, when present, is a non-empty
list whose first element is an object (the upstream schema always returns at
least one condition object when the key is present). -/
def weatherListOrMissing : Option Json → Bool
  | none => true
  | some (Json.arr (Json.obj _ :: _)) => true
  | some _ => false

/-- A well-formed current-weather response body: a JSON object in which each
optional sub-structure, when present, has the type the upstream schema gives
it (main, wind and sys are objects; weather is a non-empty list whose first
element is an object).  Any of them may be missing. -/
def wf_current_body : Json → Bool
  | .obj kvs =>
    objOrMissing (kvs.lookup "main") && weatherListOrMissing (kvs.lookup "weather") &&
      objOrMissing (kvs.lookup "wind") && objOrMissing (kvs.lookup "sys")
  | _ => false

/-- A well-formed raw forecast entry: same schema discipline as
wf_current_body for the sub-structures the entry parser touches. -/
def wf_forecast_entry : Json → Bool
  | .obj kvs =>
    objOrMissing (kvs.lookup "main") && weatherListOrMissing (kvs.lookup "weather") &&
      objOrMissing (kvs.lookup "wind")
  | _ => false

/-- Specification-side total accessor: the value a parsed record or entry
holds at a key, null when absent (records are association lists here). -/
def entry_field (e : Json) (k : String) : Json :=
  match e with
  | .obj m => (m.lookup k).getD Json.null
  | _ => Json.null

/-- Specification-side: the upstream source of a field is missing, in either
way it can be missing: the whole optional sub-object is absent, or the
sub-object is present and lacks the field. -/
def fieldMissing (kvs : List (String × Json)) (outer inner : String) : Prop :=
  kvs.lookup outer = none ∨
    ∃ sub, kvs.lookup outer = some (Json.obj sub) ∧ sub.lookup inner = none

/-- Specification-side: the upstream source of a weather-conditions field is
missing: the weather list is absent, or its first condition object lacks the
field. -/
def weatherFieldMissing (kvs : List (String × Json)) (inner : String) : Prop :=
  kvs.lookup "weather" = none ∨
    ∃ wk rest, kvs.lookup "weather" = some (Json.arr (Json.obj wk :: rest)) ∧
      wk.lookup inner = none

/-! ## Helper lemmas -/

theorem fetch_current_on_failure (city units : String) (o : NetOutcome)
    (h : isRequestFailure o = true) :
    fetch_weather_current city units o =
      some (Json.obj [("error", Json.str ("Request failed: " ++ requestErrorDescr o))]) := by
  cases o with
  | timeout => rfl
  | connFailure => rfl
  | response s b =>
    simp only [isRequestFailure] at h
    simp only [fetch_weather_current, h, if_true]

theorem fetch_forecast_on_failure (city : String) (cnt : Int) (units : String) (o : NetOutcome)
    (h : isRequestFailure o = true) :
    fetch_weather_forecast city cnt units o =
      some (Json.obj [("error", Json.str ("Request failed: " ++ requestErrorDescr o))]) := by
  cases o with
  | timeout => rfl
  | connFailure => rfl
  | response s b =>
    simp only [isRequestFailure] at h
    simp only [fetch_weather_forecast, h, if_true]

/-! ## Claim C6 -/

/-- C6: rendering an ErrorResult with message m gives exactly the single
line Error: m, for pretty_current and for pretty_forecast alike; in
particular the message boom renders as Error: boom. -/
theorem error_result_rendering (m : String) (n : Int) :
    pretty_current (Json.obj [("error", Json.str m)]) = some ("Error: " ++ m) ∧
    pretty_forecast (Json.obj [("error", Json.str m)]) n = some ("Error: " ++ m) ∧
    pretty_current (Json.obj [("error", Json.str "boom")]) = some "Error: boom" :=
  ⟨rfl, rfl, rfl⟩

/-! ## Claim C1 -/

/-- C1 counterexample: a response with the non-2xx status 300 and a decoded
JSON body makes fetch_weather_current return a success-shaped record with no
error key, not an ErrorResult, because raise_for_status only raises on 4xx
and 5xx. -/
theorem non2xx_can_yield_success_record :
    fetch_weather_current "Lahore" "metric" (NetOutcome.response 300 (some (Json.obj []))) =
      some (Json.obj [("city", Json.null), ("country", Json.null), ("temp", Json.null),
                      ("feels_like", Json.null), ("humidity", Json.null),
                      ("pressure", Json.null), ("weather_main", Json.null),
                      ("weather_desc", Json.null), ("wind_speed", Json.null)]) ∧
    pyDictContains (Json.obj [("city", Json.null), ("country", Json.null), ("temp", Json.null),
                      ("feels_like", Json.null), ("humidity", Json.null),
                      ("pressure", Json.null), ("weather_main", Json.null),
                      ("weather_desc", Json.null), ("wind_speed", Json.null)]) "error" = false ∧
    ¬ (200 ≤ 300 ∧ 300 ≤ 299) :=
  ⟨rfl, rfl, by decide⟩

/-- C1 amended: on a timeout, a connection failure, or an HTTP status in
the 4xx/5xx range, fetch_weather_current and fetch_weather_forecast each
return an ErrorResult whose message describes the failure, and never raise
past the client boundary (the result is well-defined, not an exception). -/
theorem request_failures_yield_error_result (city units : String) (cnt : Int) (o : NetOutcome)
    (h : isRequestFailure o = true) :
    fetch_weather_current city units o =
      some (Json.obj [("error", Json.str ("Request failed: " ++ requestErrorDescr o))]) ∧
    fetch_weather_forecast city cnt units o =
      some (Json.obj [("error", Json.str ("Request failed: " ++ requestErrorDescr o))]) :=
  ⟨fetch_current_on_failure city units o h, fetch_forecast_on_failure city cnt units o h⟩

/-- C1 witness: the amended theorem applied to a concrete timeout and to a
concrete 404 response. -/
theorem request_failures_yield_error_result_witness :
    (fetch_weather_current "Lahore" "metric" NetOutcome.timeout =
      some (Json.obj [("error", Json.str "Request failed: read timed out")]) ∧
     fetch_weather_forecast "Lahore" 5 "metric" NetOutcome.timeout =
      some (Json.obj [("error", Json.str "Request failed: read timed out")])) ∧
    (fetch_weather_current "Lahore" "metric" (NetOutcome.response 404 (some (Json.obj []))) =
      some (Json.obj [("error", Json.str "Request failed: HTTP error 404")]) ∧
     fetch_weather_forecast "Lahore" 5 "metric" (NetOutcome.response 404 (some (Json.obj []))) =
      some (Json.obj [("error", Json.str "Request failed: HTTP error 404")])) :=
  ⟨request_failures_yield_error_result "Lahore" "metric" 5 NetOutcome.timeout (by decide),
   request_failures_yield_error_result "Lahore" "metric" 5
     (NetOutcome.response 404 (some (Json.obj []))) (by decide)⟩

/-! ## Claim C4 -/

/-- C4 counterexample: with count -1 and two available entries, the Python
slice raw_list[:-1] keeps the first entry, so the entries sequence is not
empty. -/
theorem negative_count_yields_nonempty_entries :
    fetch_weather_forecast "Lahore" (-1) "metric" (NetOutcome.response 200 (some (Json.obj
        [("list", Json.arr [Json.obj [], Json.obj []]),
         ("city", Json.obj [("name", Json.str "Lahore"), ("country", Json.str "PK")])]))) =
      some (Json.obj [("city", Json.str "Lahore"), ("country", Json.str "PK"),
        ("forecasts", Json.arr [Json.obj [("datetime", Json.null), ("temp", Json.null),
          ("feels_like", Json.null), ("humidity", Json.null), ("pressure", Json.null),
          ("weather_main", Json.null), ("weather_desc", Json.null),
          ("wind_speed", Json.null)]])]) ∧
    fetch_weather_forecast "Lahore" (-1) "metric" (NetOutcome.response 200 (some (Json.obj
        [("list", Json.arr [Json.obj [], Json.obj []]),
         ("city", Json.obj [("name", Json.str "Lahore"), ("country", Json.str "PK")])]))) ≠
      some (Json.obj [("city", Json.str "Lahore"), ("country", Json.str "PK"),
        ("forecasts", Json.arr [])]) := by
  refine ⟨rfl, fun h => ?_⟩
  rw [show fetch_weather_forecast "Lahore" (-1) "metric" (NetOutcome.response 200 (some (Json.obj
        [("list", Json.arr [Json.obj [], Json.obj []]),
         ("city", Json.obj [("name", Json.str "Lahore"), ("country", Json.str "PK")])]))) =
      some (Json.obj [("city", Json.str "Lahore"), ("country", Json.str "PK"),
        ("forecasts", Json.arr [Json.obj [("datetime", Json.null), ("temp", Json.null),
          ("feels_like", Json.null), ("humidity", Json.null), ("pressure", Json.null),
          ("weather_main", Json.null), ("weather_desc", Json.null),
          ("wind_speed", Json.null)]])]) from rfl] at h
  simp at h

theorem objOrMissing_elim (x : Option Json) (h : objOrMissing x = true) :
    ∃ mk, x.getD (Json.obj []) = Json.obj mk ∧ (x = none → mk = []) := by
  match x with
  | none => exact ⟨[], rfl, fun _ => rfl⟩
  | some (Json.obj mk) => exact ⟨mk, rfl, by simp⟩
  | some Json.null => simp [objOrMissing] at h
  | some (Json.str s) => simp [objOrMissing] at h
  | some (Json.num n) => simp [objOrMissing] at h
  | some (Json.arr xs) => simp [objOrMissing] at h

theorem weatherListOrMissing_elim (x : Option Json) (h : weatherListOrMissing x = true) :
    ∃ wk, pyIndex0 (x.getD (Json.arr [Json.obj []])) = some (Json.obj wk) ∧
      (x = none → wk = []) := by
  match x with
  | none => exact ⟨[], rfl, fun _ => rfl⟩
  | some (Json.arr (Json.obj wk :: rest)) => exact ⟨wk, rfl, by simp⟩
  | some Json.null => simp [weatherListOrMissing] at h
  | some (Json.str s) => simp [weatherListOrMissing] at h
  | some (Json.num n) => simp [weatherListOrMissing] at h
  | some (Json.obj mk) => simp [weatherListOrMissing] at h
  | some (Json.arr []) => simp [weatherListOrMissing] at h
  | some (Json.arr (Json.null :: rest)) => simp [weatherListOrMissing] at h
  | some (Json.arr (Json.str s :: rest)) => simp [weatherListOrMissing] at h
  | some (Json.arr (Json.num n :: rest)) => simp [weatherListOrMissing] at h
  | some (Json.arr (Json.arr ys :: rest)) => simp [weatherListOrMissing] at h

theorem pySliceTo_empty (xs : List Json) (n : Int)
    (h : n = 0 ∨ n ≤ -(xs.length : Int)) : pySliceTo xs n = [] := by
  rcases h with rfl | h
  · simp [pySliceTo]
  · unfold pySliceTo
    by_cases h0 : (0 : Int) ≤ n
    · have hx : xs.length = 0 := by omega
      rw [if_pos h0]
      simp [List.eq_nil_of_length_eq_zero hx]
    · rw [if_neg h0]
      have hz : xs.length - (-n).toNat = 0 := by omega
      rw [hz, List.take_zero]

/-- C4 amended: count 0 (and, more generally, any count at most the negated
number of available entries, by Python slice semantics) yields a
ForecastResult whose entries sequence is empty, not an error; other negative
counts keep all but the last entries and can be non-empty. -/
theorem count_zero_yields_empty_entries (city units : String) (cnt : Int)
    (kvs : List (String × Json)) (rawList : List Json)
    (hlist : kvs.lookup "list" = some (Json.arr rawList))
    (hcity : objOrMissing (kvs.lookup "city") = true)
    (hcnt : cnt = 0 ∨ cnt ≤ -(rawList.length : Int)) :
    ∃ cv cc, fetch_weather_forecast city cnt units
        (NetOutcome.response 200 (some (Json.obj kvs))) =
      some (Json.obj [("city", cv), ("country", cc), ("forecasts", Json.arr [])]) := by
  obtain ⟨ck, hck, -⟩ := objOrMissing_elim _ hcity
  have hslice := pySliceTo_empty rawList cnt hcnt
  refine ⟨(ck.lookup "name").getD Json.null, (ck.lookup "country").getD Json.null, ?_⟩
  simp [fetch_weather_forecast, statusRaises, pyDictGet, hlist, hck, hslice, build_forecasts]

/-- C4 witness: the amended theorem at count 0 with two available entries. -/
theorem count_zero_yields_empty_entries_witness :
    ∃ cv cc, fetch_weather_forecast "Lahore" 0 "metric" (NetOutcome.response 200 (some (Json.obj
        [("list", Json.arr [Json.obj [], Json.obj []])]))) =
      some (Json.obj [("city", cv), ("country", cc), ("forecasts", Json.arr [])]) :=
  count_zero_yields_empty_entries "Lahore" "metric" 0 _ _ rfl rfl (Or.inl rfl)

/-! ## Claim C5 -/

/-- C5 counterexample: a rendered forecast line carries the label with a C
after the degree sign, so the template of the claim, with a bare degree
sign, does not match the output. -/
theorem forecast_line_label_not_bare_degree :
    pretty_forecast (Json.obj [("city", Json.str "X"), ("country", Json.str "Y"),
        ("forecasts", Json.arr [Json.obj [("datetime", Json.str "2025-01-01 00:00:00"),
          ("temp", Json.num 7), ("weather_desc", Json.str "clear sky")]])]) 5 =
      some "2025-01-01 00:00:00: 7°C, clear sky" ∧
    pretty_forecast (Json.obj [("city", Json.str "X"), ("country", Json.str "Y"),
        ("forecasts", Json.arr [Json.obj [("datetime", Json.str "2025-01-01 00:00:00"),
          ("temp", Json.num 7), ("weather_desc", Json.str "clear sky")]])]) 5 ≠
      some "2025-01-01 00:00:00: 7°, clear sky" := by
  constructor
  · rfl
  · intro h
    rw [show pretty_forecast (Json.obj [("city", Json.str "X"), ("country", Json.str "Y"),
        ("forecasts", Json.arr [Json.obj [("datetime", Json.str "2025-01-01 00:00:00"),
          ("temp", Json.num 7), ("weather_desc", Json.str "clear sky")]])]) 5 =
      some "2025-01-01 00:00:00: 7°C, clear sky" from rfl] at h
    simp at h

/-! ## Claim C7 -/

/-- C7: on a non-error ForecastResult, whenever the display-time truncation
leaves zero entries, pretty_forecast returns exactly the fixed placeholder
No forecast data. rather than an empty string. -/
theorem empty_after_truncation_placeholder (kvs : List (String × Json))
    (fs : List Json) (n : Int)
    (herr : kvs.lookup "error" = none)
    (hfs : kvs.lookup "forecasts" = some (Json.arr fs))
    (hcut : pySliceTo fs n = []) :
    pretty_forecast (Json.obj kvs) n = some "No forecast data." := by
  simp [pretty_forecast, pyDictContains, pyDictGet, herr, hfs, hcut, forecast_lines]

/-- C7 witness: a ForecastResult with zero entries renders as the
placeholder. -/
theorem empty_after_truncation_placeholder_witness :
    pretty_forecast (Json.obj [("city", Json.null), ("country", Json.null),
      ("forecasts", Json.arr [])]) 5 = some "No forecast data." :=
  empty_after_truncation_placeholder _ [] 5 rfl rfl rfl

/-! ## Claim C8 -/

/-- C8: when the credential environment variable is absent or empty, module
initialization fails with a diagnostic that names the variable, and a whole
program run issues no HTTP request at all. -/
theorem missing_credential_aborts (env : Option String) (city : String)
    (fc : Bool) (n : Int)
    (h : env = none ∨ env = some "") :
    module_init env = Except.error "❌ Missing OPENWEATHER_API_KEY in .env file" ∧
    strHas "❌ Missing OPENWEATHER_API_KEY in .env file" "OPENWEATHER_API_KEY" = true ∧
    program_http_requests env city fc n = [] := by
  rcases h with rfl | rfl
  · exact ⟨rfl, by decide, rfl⟩
  · exact ⟨rfl, by decide, rfl⟩

/-- C8 witness: the theorem at a concrete missing variable and a concrete
run requesting a forecast. -/
theorem missing_credential_aborts_witness :
    module_init none = Except.error "❌ Missing OPENWEATHER_API_KEY in .env file" ∧
    strHas "❌ Missing OPENWEATHER_API_KEY in .env file" "OPENWEATHER_API_KEY" = true ∧
    program_http_requests none "Lahore" true 5 = [] :=
  missing_credential_aborts none "Lahore" true 5 (Or.inl rfl)

/-! ## Claim C3 -/

theorem build_forecasts_length (xs : List Json) :
    ∀ ys, build_forecasts xs = some ys → ys.length = xs.length := by
  induction xs with
  | nil =>
    intro ys h
    simp only [build_forecasts, Option.some.injEq] at h
    rw [← h]
  | cons e rest ih =>
    intro ys h
    unfold build_forecasts at h
    rcases he : parse_forecast_entry e with - | fe <;> rw [he] at h
    · exact Option.noConfusion h
    · rcases hr : build_forecasts rest with - | others <;> rw [hr] at h
      · exact Option.noConfusion h
      · simp only [Option.some.injEq] at h
        rw [← h]
        simp [ih others hr]

/-- C3: for a positive count, fetch_weather_forecast returns exactly the
parsed first count entries of the upstream list, in their original order
(build_forecasts is the in-order loop over the truncated list); when count
exceeds the number of available entries the min collapses to the full
length, so all available entries are returned with no error. -/
theorem forecast_truncation_first_count (city units : String) (cnt : Int)
    (kvs : List (String × Json)) (rawList entries : List Json)
    (hlist : kvs.lookup "list" = some (Json.arr rawList))
    (hcity : objOrMissing (kvs.lookup "city") = true)
    (hcnt : 0 < cnt)
    (hparse : build_forecasts (rawList.take cnt.toNat) = some entries) :
    (∃ cv cc, fetch_weather_forecast city cnt units
        (NetOutcome.response 200 (some (Json.obj kvs))) =
      some (Json.obj [("city", cv), ("country", cc), ("forecasts", Json.arr entries)])) ∧
    entries.length = min cnt.toNat rawList.length := by
  obtain ⟨ck, hck, -⟩ := objOrMissing_elim _ hcity
  have hslice : pySliceTo rawList cnt = rawList.take cnt.toNat := by
    unfold pySliceTo
    rw [if_pos (le_of_lt hcnt)]
  constructor
  · refine ⟨(ck.lookup "name").getD Json.null, (ck.lookup "country").getD Json.null, ?_⟩
    simp [fetch_weather_forecast, statusRaises, pyDictGet, hlist, hck, hslice, hparse]
  · rw [build_forecasts_length _ entries hparse, List.length_take]

/-- C3 witness: the theorem at count 3 against ten available entries:
exactly three entries come back. -/
theorem forecast_truncation_first_count_witness :
    (∃ cv cc, fetch_weather_forecast "Lahore" 3 "metric" (NetOutcome.response 200 (some (Json.obj
        [("list", Json.arr [Json.obj [], Json.obj [], Json.obj [], Json.obj [], Json.obj [],
          Json.obj [], Json.obj [], Json.obj [], Json.obj [], Json.obj []])]))) =
      some (Json.obj [("city", cv), ("country", cc), ("forecasts", Json.arr
        [Json.obj [("datetime", Json.null), ("temp", Json.null), ("feels_like", Json.null),
          ("humidity", Json.null), ("pressure", Json.null), ("weather_main", Json.null),
          ("weather_desc", Json.null), ("wind_speed", Json.null)],
         Json.obj [("datetime", Json.null), ("temp", Json.null), ("feels_like", Json.null),
          ("humidity", Json.null), ("pressure", Json.null), ("weather_main", Json.null),
          ("weather_desc", Json.null), ("wind_speed", Json.null)],
         Json.obj [("datetime", Json.null), ("temp", Json.null), ("feels_like", Json.null),
          ("humidity", Json.null), ("pressure", Json.null), ("weather_main", Json.null),
          ("weather_desc", Json.null), ("wind_speed", Json.null)]])])) ∧
    ([Json.obj [("datetime", Json.null), ("temp", Json.null), ("feels_like", Json.null),
          ("humidity", Json.null), ("pressure", Json.null), ("weather_main", Json.null),
          ("weather_desc", Json.null), ("wind_speed", Json.null)],
      Json.obj [("datetime", Json.null), ("temp", Json.null), ("feels_like", Json.null),
          ("humidity", Json.null), ("pressure", Json.null), ("weather_main", Json.null),
          ("weather_desc", Json.null), ("wind_speed", Json.null)],
      Json.obj [("datetime", Json.null), ("temp", Json.null), ("feels_like", Json.null),
          ("humidity", Json.null), ("pressure", Json.null), ("weather_main", Json.null),
          ("weather_desc", Json.null), ("wind_speed", Json.null)]] : List Json).length =
      min (Int.toNat 3) ([Json.obj [], Json.obj [], Json.obj [], Json.obj [], Json.obj [],
          Json.obj [], Json.obj [], Json.obj [], Json.obj [], Json.obj []] : List Json).length :=
  forecast_truncation_first_count "Lahore" "metric" 3 _ _ _ rfl rfl (by decide) rfl

theorem forecast_lines_of_objs (fs : List Json)
    (hobj : ∀ e ∈ fs, ∃ me, e = Json.obj me) :
    forecast_lines fs = some (fs.map fun e =>
      pyStr (entry_field e "datetime") ++ ": " ++ pyStr (entry_field e "temp") ++ "°C, " ++
        pyStr (entry_field e "weather_desc")) := by
  induction fs with
  | nil => rfl
  | cons e rest ih =>
    obtain ⟨me, rfl⟩ := hobj e (by simp)
    have ihr := ih (fun x hx => hobj x (by simp [hx]))
    simp [forecast_lines, pyDictGet, ihr, entry_field]

/-- C5 amended: on a non-error ForecastResult with at least one entry and a
positive show count, pretty_forecast takes the first show count entries of
the entries sequence (a second truncation, independent of the fetch-time
count), renders each as timestamp, colon, temperature followed by the
degree-C label, comma, description, and joins the lines with newlines. -/
theorem forecast_render_template (kvs : List (String × Json)) (fs : List Json) (n : Int)
    (herr : kvs.lookup "error" = none)
    (hfs : kvs.lookup "forecasts" = some (Json.arr fs))
    (hobj : ∀ e ∈ fs, ∃ me, e = Json.obj me)
    (hne : fs ≠ []) (hpos : 0 < n) :
    pretty_forecast (Json.obj kvs) n =
      some (String.intercalate "\n" ((fs.take n.toNat).map fun e =>
        pyStr (entry_field e "datetime") ++ ": " ++ pyStr (entry_field e "temp") ++ "°C, " ++
          pyStr (entry_field e "weather_desc"))) := by
  have hslice : pySliceTo fs n = fs.take n.toNat := by
    unfold pySliceTo
    rw [if_pos (le_of_lt hpos)]
  have hl := forecast_lines_of_objs (fs.take n.toNat)
    (fun e he => hobj e (List.take_subset _ _ he))
  have hne2 : fs.take n.toNat ≠ [] := by
    intro hcontra
    rcases List.take_eq_nil_iff.mp hcontra with h1 | h1
    · omega
    · exact hne h1
  obtain ⟨a, l, hal⟩ := List.exists_cons_of_ne_nil hne2
  rw [hal] at hl
  simp [pretty_forecast, pyDictContains, pyDictGet, herr, hfs, hslice, hal, hl]

/-- C5 witness: two entries fetched, show count 1: only the first entry is
rendered, in the amended line format. -/
theorem forecast_render_template_witness :
    pretty_forecast (Json.obj [("city", Json.null), ("country", Json.null),
        ("forecasts", Json.arr [Json.obj [("datetime", Json.str "2025-01-01 00:00:00"),
            ("temp", Json.num 7), ("weather_desc", Json.str "clear sky")],
          Json.obj [("datetime", Json.str "2025-01-01 03:00:00")]])]) 1 =
      some (String.intercalate "\n"
        (([Json.obj [("datetime", Json.str "2025-01-01 00:00:00"),
            ("temp", Json.num 7), ("weather_desc", Json.str "clear sky")],
          Json.obj [("datetime", Json.str "2025-01-01 03:00:00")]].take (Int.toNat 1)).map fun e =>
        pyStr (entry_field e "datetime") ++ ": " ++ pyStr (entry_field e "temp") ++ "°C, " ++
          pyStr (entry_field e "weather_desc"))) :=
  forecast_render_template _ _ 1 rfl rfl
    (by
      intro e he
      simp only [List.mem_cons, List.not_mem_nil, or_false] at he
      rcases he with rfl | rfl
      · exact ⟨_, rfl⟩
      · exact ⟨_, rfl⟩)
    (by simp) (by decide)

/-! ## Claim C2 -/

theorem fieldMissing_getD_null (kvs : List (String × Json)) (outer inner : String)
    (sub : List (String × Json))
    (hsub : (kvs.lookup outer).getD (Json.obj []) = Json.obj sub)
    (hsub0 : kvs.lookup outer = none → sub = [])
    (h : fieldMissing kvs outer inner) :
    (sub.lookup inner).getD Json.null = Json.null := by
  rcases h with h | ⟨sub2, hl, hin⟩
  · rw [hsub0 h]
    rfl
  · rw [hl] at hsub
    simp only [Option.getD_some, Json.obj.injEq] at hsub
    rw [← hsub, hin]
    rfl

theorem weatherFieldMissing_getD_null (kvs : List (String × Json)) (inner : String)
    (wk : List (String × Json))
    (hwk : pyIndex0 ((kvs.lookup "weather").getD (Json.arr [Json.obj []])) =
      some (Json.obj wk))
    (hwk0 : kvs.lookup "weather" = none → wk = [])
    (h : weatherFieldMissing kvs inner) :
    (wk.lookup inner).getD Json.null = Json.null := by
  rcases h with h | ⟨wk2, rest, hl, hin⟩
  · rw [hwk0 h]
    rfl
  · rw [hl] at hwk
    simp only [Option.getD_some, pyIndex0, Option.some.injEq, Json.obj.injEq] at hwk
    rw [← hwk, hin]
    rfl

/-- C2: on a well-formed response body (and a well-formed raw forecast
entry) in which any optional sub-object or field may be missing, parsing is
total: fetch_weather_current returns a complete record and the per-entry
parser of fetch_weather_forecast returns a complete entry, and every field
whose upstream source is missing, either because the whole sub-object is
absent or because a present sub-object lacks the field, surfaces as null. -/
theorem defensive_parsing_totality (city units : String) (kvs m : List (String × Json))
    (hwf : wf_current_body (Json.obj kvs) = true)
    (hwfe : wf_forecast_entry (Json.obj m) = true) :
    (∃ c co t fl hu pr wm wd ws,
      fetch_weather_current city units (NetOutcome.response 200 (some (Json.obj kvs))) =
        some (Json.obj [("city", c), ("country", co), ("temp", t), ("feels_like", fl),
                        ("humidity", hu), ("pressure", pr), ("weather_main", wm),
                        ("weather_desc", wd), ("wind_speed", ws)]) ∧
      (kvs.lookup "name" = none → c = Json.null) ∧
      (fieldMissing kvs "sys" "country" → co = Json.null) ∧
      (fieldMissing kvs "main" "temp" → t = Json.null) ∧
      (fieldMissing kvs "main" "feels_like" → fl = Json.null) ∧
      (fieldMissing kvs "main" "humidity" → hu = Json.null) ∧
      (fieldMissing kvs "main" "pressure" → pr = Json.null) ∧
      (weatherFieldMissing kvs "main" → wm = Json.null) ∧
      (weatherFieldMissing kvs "description" → wd = Json.null) ∧
      (fieldMissing kvs "wind" "speed" → ws = Json.null)) ∧
    (∃ dt t fl hu pr wm wd ws,
      parse_forecast_entry (Json.obj m) =
        some (Json.obj [("datetime", dt), ("temp", t), ("feels_like", fl), ("humidity", hu),
                        ("pressure", pr), ("weather_main", wm), ("weather_desc", wd),
                        ("wind_speed", ws)]) ∧
      (m.lookup "dt_txt" = none → dt = Json.null) ∧
      (fieldMissing m "main" "temp" → t = Json.null) ∧
      (fieldMissing m "main" "feels_like" → fl = Json.null) ∧
      (fieldMissing m "main" "humidity" → hu = Json.null) ∧
      (fieldMissing m "main" "pressure" → pr = Json.null) ∧
      (weatherFieldMissing m "main" → wm = Json.null) ∧
      (weatherFieldMissing m "description" → wd = Json.null) ∧
      (fieldMissing m "wind" "speed" → ws = Json.null)) := by
  simp only [wf_current_body, Bool.and_eq_true] at hwf
  obtain ⟨⟨⟨hmain, hweather⟩, hwind⟩, hsys⟩ := hwf
  simp only [wf_forecast_entry, Bool.and_eq_true] at hwfe
  obtain ⟨⟨hemain, heweather⟩, hewind⟩ := hwfe
  obtain ⟨mk, hmk, hmk0⟩ := objOrMissing_elim _ hmain
  obtain ⟨wk, hwk, hwk0⟩ := weatherListOrMissing_elim _ hweather
  obtain ⟨wdk, hwdk, hwdk0⟩ := objOrMissing_elim _ hwind
  obtain ⟨sk, hsk, hsk0⟩ := objOrMissing_elim _ hsys
  obtain ⟨emk, hemk, hemk0⟩ := objOrMissing_elim _ hemain
  obtain ⟨ewk, hewk, hewk0⟩ := weatherListOrMissing_elim _ heweather
  obtain ⟨ewdk, hewdk, hewdk0⟩ := objOrMissing_elim _ hewind
  constructor
  · refine ⟨(kvs.lookup "name").getD Json.null, (sk.lookup "country").getD Json.null,
      (mk.lookup "temp").getD Json.null, (mk.lookup "feels_like").getD Json.null,
      (mk.lookup "humidity").getD Json.null, (mk.lookup "pressure").getD Json.null,
      (wk.lookup "main").getD Json.null, (wk.lookup "description").getD Json.null,
      (wdk.lookup "speed").getD Json.null, ?_, ?_, ?_, ?_, ?_, ?_, ?_, ?_, ?_, ?_⟩
    · simp [fetch_weather_current, statusRaises, parse_current_body, pyDictGet,
        hmk, hwk, hwdk, hsk]
    · intro h
      simp [h]
    · exact fieldMissing_getD_null kvs "sys" "country" sk hsk hsk0
    · exact fieldMissing_getD_null kvs "main" "temp" mk hmk hmk0
    · exact fieldMissing_getD_null kvs "main" "feels_like" mk hmk hmk0
    · exact fieldMissing_getD_null kvs "main" "humidity" mk hmk hmk0
    · exact fieldMissing_getD_null kvs "main" "pressure" mk hmk hmk0
    · exact weatherFieldMissing_getD_null kvs "main" wk hwk hwk0
    · exact weatherFieldMissing_getD_null kvs "description" wk hwk hwk0
    · exact fieldMissing_getD_null kvs "wind" "speed" wdk hwdk hwdk0
  · refine ⟨(m.lookup "dt_txt").getD Json.null,
      (emk.lookup "temp").getD Json.null, (emk.lookup "feels_like").getD Json.null,
      (emk.lookup "humidity").getD Json.null, (emk.lookup "pressure").getD Json.null,
      (ewk.lookup "main").getD Json.null, (ewk.lookup "description").getD Json.null,
      (ewdk.lookup "speed").getD Json.null, ?_, ?_, ?_, ?_, ?_, ?_, ?_, ?_, ?_⟩
    · simp [parse_forecast_entry, pyDictGet, hemk, hewk, hewdk]
    · intro h
      simp [h]
    · exact fieldMissing_getD_null m "main" "temp" emk hemk hemk0
    · exact fieldMissing_getD_null m "main" "feels_like" emk hemk hemk0
    · exact fieldMissing_getD_null m "main" "humidity" emk hemk hemk0
    · exact fieldMissing_getD_null m "main" "pressure" emk hemk hemk0
    · exact weatherFieldMissing_getD_null m "main" ewk hewk hewk0
    · exact weatherFieldMissing_getD_null m "description" ewk hewk hewk0
    · exact fieldMissing_getD_null m "wind" "speed" ewdk hewdk hewdk0

/-- C2 witness: a body whose main object is present but lacks temperature
(and whose sys and wind objects are present but empty), and a raw entry
whose main object is present but lacks feels-like: parsing succeeds and the
fields missing inside present sub-objects surface as null. -/
theorem defensive_parsing_totality_witness :
    (∃ c co t fl hu pr wm wd ws,
      fetch_weather_current "Lahore" "metric" (NetOutcome.response 200 (some (Json.obj
          [("name", Json.str "Lahore"), ("main", Json.obj [("humidity", Json.num 40)]),
           ("sys", Json.obj []), ("wind", Json.obj [])]))) =
        some (Json.obj [("city", c), ("country", co), ("temp", t), ("feels_like", fl),
                        ("humidity", hu), ("pressure", pr), ("weather_main", wm),
                        ("weather_desc", wd), ("wind_speed", ws)]) ∧
      (([("name", Json.str "Lahore"), ("main", Json.obj [("humidity", Json.num 40)]),
         ("sys", Json.obj []), ("wind", Json.obj [])] : List (String × Json)).lookup "name" =
          none → c = Json.null) ∧
      (fieldMissing [("name", Json.str "Lahore"), ("main", Json.obj [("humidity", Json.num 40)]),
         ("sys", Json.obj []), ("wind", Json.obj [])] "sys" "country" → co = Json.null) ∧
      (fieldMissing [("name", Json.str "Lahore"), ("main", Json.obj [("humidity", Json.num 40)]),
         ("sys", Json.obj []), ("wind", Json.obj [])] "main" "temp" → t = Json.null) ∧
      (fieldMissing [("name", Json.str "Lahore"), ("main", Json.obj [("humidity", Json.num 40)]),
         ("sys", Json.obj []), ("wind", Json.obj [])] "main" "feels_like" → fl = Json.null) ∧
      (fieldMissing [("name", Json.str "Lahore"), ("main", Json.obj [("humidity", Json.num 40)]),
         ("sys", Json.obj []), ("wind", Json.obj [])] "main" "humidity" → hu = Json.null) ∧
      (fieldMissing [("name", Json.str "Lahore"), ("main", Json.obj [("humidity", Json.num 40)]),
         ("sys", Json.obj []), ("wind", Json.obj [])] "main" "pressure" → pr = Json.null) ∧
      (weatherFieldMissing [("name", Json.str "Lahore"),
         ("main", Json.obj [("humidity", Json.num 40)]),
         ("sys", Json.obj []), ("wind", Json.obj [])] "main" → wm = Json.null) ∧
      (weatherFieldMissing [("name", Json.str "Lahore"),
         ("main", Json.obj [("humidity", Json.num 40)]),
         ("sys", Json.obj []), ("wind", Json.obj [])] "description" → wd = Json.null) ∧
      (fieldMissing [("name", Json.str "Lahore"), ("main", Json.obj [("humidity", Json.num 40)]),
         ("sys", Json.obj []), ("wind", Json.obj [])] "wind" "speed" → ws = Json.null)) ∧
    (∃ dt t fl hu pr wm wd ws,
      parse_forecast_entry (Json.obj [("dt_txt", Json.str "2025-01-01 00:00:00"),
          ("main", Json.obj [("temp", Json.num 3)])]) =
        some (Json.obj [("datetime", dt), ("temp", t), ("feels_like", fl), ("humidity", hu),
                        ("pressure", pr), ("weather_main", wm), ("weather_desc", wd),
                        ("wind_speed", ws)]) ∧
      (([("dt_txt", Json.str "2025-01-01 00:00:00"),
         ("main", Json.obj [("temp", Json.num 3)])] : List (String × Json)).lookup "dt_txt" =
          none → dt = Json.null) ∧
      (fieldMissing [("dt_txt", Json.str "2025-01-01 00:00:00"),
         ("main", Json.obj [("temp", Json.num 3)])] "main" "temp" → t = Json.null) ∧
      (fieldMissing [("dt_txt", Json.str "2025-01-01 00:00:00"),
         ("main", Json.obj [("temp", Json.num 3)])] "main" "feels_like" → fl = Json.null) ∧
      (fieldMissing [("dt_txt", Json.str "2025-01-01 00:00:00"),
         ("main", Json.obj [("temp", Json.num 3)])] "main" "humidity" → hu = Json.null) ∧
      (fieldMissing [("dt_txt", Json.str "2025-01-01 00:00:00"),
         ("main", Json.obj [("temp", Json.num 3)])] "main" "pressure" → pr = Json.null) ∧
      (weatherFieldMissing [("dt_txt", Json.str "2025-01-01 00:00:00"),
         ("main", Json.obj [("temp", Json.num 3)])] "main" → wm = Json.null) ∧
      (weatherFieldMissing [("dt_txt", Json.str "2025-01-01 00:00:00"),
         ("main", Json.obj [("temp", Json.num 3)])] "description" → wd = Json.null) ∧
      (fieldMissing [("dt_txt", Json.str "2025-01-01 00:00:00"),
         ("main", Json.obj [("temp", Json.num 3)])] "wind" "speed" → ws = Json.null)) :=
  defensive_parsing_totality "Lahore" "metric"
    [("name", Json.str "Lahore"), ("main", Json.obj [("humidity", Json.num 40)]),
     ("sys", Json.obj []), ("wind", Json.obj [])]
    [("dt_txt", Json.str "2025-01-01 00:00:00"), ("main", Json.obj [("temp", Json.num 3)])]
    rfl rfl

/-! ## Claim C9 -/

theorem parse_current_body_success_shape (data : Json) (kvs : List (String × Json))
    (h : parse_current_body data = some (Json.obj kvs)) :
    kvs.map Prod.fst = ["city", "country", "temp", "feels_like", "humidity", "pressure",
      "weather_main", "weather_desc", "wind_speed"] ∧
    kvs.lookup "error" = none := by
  unfold parse_current_body at h
  repeat' split at h
  all_goals
    first
      | exact Option.noConfusion h
      | (simp only [Option.some.injEq, Json.obj.injEq] at h
         rw [← h]
         exact ⟨rfl, rfl⟩)

theorem fetch_current_success_shape (city units : String) (o : NetOutcome)
    (kvs : List (String × Json))
    (hne : isRequestFailure o = false)
    (h : fetch_weather_current city units o = some (Json.obj kvs)) :
    kvs.map Prod.fst = ["city", "country", "temp", "feels_like", "humidity", "pressure",
      "weather_main", "weather_desc", "wind_speed"] ∧
    kvs.lookup "error" = none := by
  cases o with
  | timeout => simp [isRequestFailure] at hne
  | connFailure => simp [isRequestFailure] at hne
  | response s b =>
    simp only [isRequestFailure] at hne
    simp only [fetch_weather_current, hne, Bool.false_eq_true, if_false] at h
    cases b with
    | none => exact Option.noConfusion h
    | some data => exact parse_current_body_success_shape data kvs h

theorem fetch_forecast_success_shape (city : String) (cnt : Int) (units : String)
    (o : NetOutcome) (kvs : List (String × Json))
    (hne : isRequestFailure o = false)
    (h : fetch_weather_forecast city cnt units o = some (Json.obj kvs)) :
    kvs.map Prod.fst = ["city", "country", "forecasts"] ∧ kvs.lookup "error" = none := by
  cases o with
  | timeout => simp [isRequestFailure] at hne
  | connFailure => simp [isRequestFailure] at hne
  | response s b =>
    simp only [isRequestFailure] at hne
    simp only [fetch_weather_forecast, hne, Bool.false_eq_true, if_false] at h
    cases b with
    | none => exact Option.noConfusion h
    | some data =>
      repeat' split at h
      all_goals
        first
          | exact Option.noConfusion h
          | (simp only [Option.some.injEq, Json.obj.injEq] at h
             rw [← h]
             exact ⟨rfl, rfl⟩)

/-- C9: the success and error variants are disjoint at the presenter
interface: any success record a fetch can produce under a non-failing
outcome has a fixed key set that never includes the error key, so the
presenter test for an error is unambiguous. -/
theorem success_error_key_disjoint (city units : String) (cnt : Int) (o : NetOutcome)
    (ckvs fkvs : List (String × Json))
    (hne : isRequestFailure o = false)
    (hc : fetch_weather_current city units o = some (Json.obj ckvs))
    (hf : fetch_weather_forecast city cnt units o = some (Json.obj fkvs)) :
    (ckvs.map Prod.fst = ["city", "country", "temp", "feels_like", "humidity", "pressure",
        "weather_main", "weather_desc", "wind_speed"] ∧
      pyDictContains (Json.obj ckvs) "error" = false) ∧
    (fkvs.map Prod.fst = ["city", "country", "forecasts"] ∧
      pyDictContains (Json.obj fkvs) "error" = false) := by
  obtain ⟨hck, hcl⟩ := fetch_current_success_shape city units o ckvs hne hc
  obtain ⟨hfk, hfl⟩ := fetch_forecast_success_shape city cnt units o fkvs hne hf
  exact ⟨⟨hck, by simp [pyDictContains, hcl]⟩, ⟨hfk, by simp [pyDictContains, hfl]⟩⟩

/-- C9 witness: a concrete 200 response with an empty body object. -/
theorem success_error_key_disjoint_witness :
    (([("city", Json.null), ("country", Json.null), ("temp", Json.null),
       ("feels_like", Json.null), ("humidity", Json.null), ("pressure", Json.null),
       ("weather_main", Json.null), ("weather_desc", Json.null),
       ("wind_speed", Json.null)] : List (String × Json)).map Prod.fst =
        ["city", "country", "temp", "feels_like", "humidity", "pressure",
         "weather_main", "weather_desc", "wind_speed"] ∧
      pyDictContains (Json.obj [("city", Json.null), ("country", Json.null),
        ("temp", Json.null), ("feels_like", Json.null), ("humidity", Json.null),
        ("pressure", Json.null), ("weather_main", Json.null), ("weather_desc", Json.null),
        ("wind_speed", Json.null)]) "error" = false) ∧
    (([("city", Json.null), ("country", Json.null),
       ("forecasts", Json.arr [])] : List (String × Json)).map Prod.fst =
        ["city", "country", "forecasts"] ∧
      pyDictContains (Json.obj [("city", Json.null), ("country", Json.null),
        ("forecasts", Json.arr [])]) "error" = false) :=
  success_error_key_disjoint "Lahore" "metric" 5 (NetOutcome.response 200 (some (Json.obj [])))
    _ _ rfl rfl rfl

/-! ## Claim C10 -/

/-- C10: the unit labels in the rendered output are constants of the
presenters, not functions of the unit system used at fetch time: the same
record comes back whatever the unit system (the unit parameter never
reaches the parsing or rendering path), pretty_current renders temperature
and feels-like with a fixed degree-C suffix and wind speed with a fixed
m-per-s suffix, and pretty_forecast renders each entry temperature with the
same fixed degree-C suffix. -/
theorem unit_labels_are_constants (city u1 u2 : String) (cnt : Int) (o : NetOutcome)
    (c co t fl hu pr wm wd ws : Json) (m : List (String × Json))
    (hc : fetch_weather_current city u1 o =
      some (Json.obj [("city", c), ("country", co), ("temp", t), ("feels_like", fl),
                      ("humidity", hu), ("pressure", pr), ("weather_main", wm),
                      ("weather_desc", wd), ("wind_speed", ws)])) :
    fetch_weather_current city u2 o =
      some (Json.obj [("city", c), ("country", co), ("temp", t), ("feels_like", fl),
                      ("humidity", hu), ("pressure", pr), ("weather_main", wm),
                      ("weather_desc", wd), ("wind_speed", ws)]) ∧
    fetch_weather_forecast city cnt u1 o = fetch_weather_forecast city cnt u2 o ∧
    pretty_current (Json.obj [("city", c), ("country", co), ("temp", t), ("feels_like", fl),
                      ("humidity", hu), ("pressure", pr), ("weather_main", wm),
                      ("weather_desc", wd), ("wind_speed", ws)]) =
      some ((((("📍 " ++ pyStr c ++ ", " ++ pyStr co ++ "\n") ++
        ("🌤️  " ++ pyStr wm ++ " - " ++ pyStr wd ++ "\n")) ++
        ("🌡️  Temp: " ++ pyStr t ++ "°C (feels like " ++ pyStr fl ++ "°C)\n")) ++
        ("💧 Humidity: " ++ pyStr hu ++ "% | Pressure: " ++ pyStr pr ++ " hPa\n")) ++
        ("💨 Wind speed: " ++ pyStr ws ++ " m/s\n")) ∧
    pretty_forecast (Json.obj [("forecasts", Json.arr [Json.obj m])]) 5 =
      some (pyStr (entry_field (Json.obj m) "datetime") ++ ": " ++
        pyStr (entry_field (Json.obj m) "temp") ++ "°C, " ++
        pyStr (entry_field (Json.obj m) "weather_desc")) :=
  ⟨hc, rfl, rfl, rfl⟩

/-- C10 witness: a concrete 200 response fetched with metric units. -/
theorem unit_labels_are_constants_witness :
    fetch_weather_current "Lahore" "imperial" (NetOutcome.response 200 (some (Json.obj []))) =
      some (Json.obj [("city", Json.null), ("country", Json.null), ("temp", Json.null),
                      ("feels_like", Json.null), ("humidity", Json.null),
                      ("pressure", Json.null), ("weather_main", Json.null),
                      ("weather_desc", Json.null), ("wind_speed", Json.null)]) ∧
    fetch_weather_forecast "Lahore" 5 "metric" (NetOutcome.response 200 (some (Json.obj []))) =
      fetch_weather_forecast "Lahore" 5 "imperial"
        (NetOutcome.response 200 (some (Json.obj []))) ∧
    pretty_current (Json.obj [("city", Json.null), ("country", Json.null),
                      ("temp", Json.null), ("feels_like", Json.null),
                      ("humidity", Json.null), ("pressure", Json.null),
                      ("weather_main", Json.null), ("weather_desc", Json.null),
                      ("wind_speed", Json.null)]) =
      some ((((("📍 " ++ pyStr Json.null ++ ", " ++ pyStr Json.null ++ "\n") ++
        ("🌤️  " ++ pyStr Json.null ++ " - " ++ pyStr Json.null ++ "\n")) ++
        ("🌡️  Temp: " ++ pyStr Json.null ++ "°C (feels like " ++ pyStr Json.null ++ "°C)\n")) ++
        ("💧 Humidity: " ++ pyStr Json.null ++ "% | Pressure: " ++ pyStr Json.null ++ " hPa\n")) ++
        ("💨 Wind speed: " ++ pyStr Json.null ++ " m/s\n")) ∧
    pretty_forecast (Json.obj [("forecasts", Json.arr [Json.obj [("temp", Json.num 7)]])]) 5 =
      some (pyStr (entry_field (Json.obj [("temp", Json.num 7)]) "datetime") ++ ": " ++
        pyStr (entry_field (Json.obj [("temp", Json.num 7)]) "temp") ++ "°C, " ++
        pyStr (entry_field (Json.obj [("temp", Json.num 7)]) "weather_desc")) :=
  unit_labels_are_constants "Lahore" "metric" "imperial" 5
    (NetOutcome.response 200 (some (Json.obj []))) Json.null Json.null Json.null Json.null
    Json.null Json.null Json.null Json.null Json.null [("temp", Json.num 7)] rfl
